import Mathlib

/-!
# Verification of the JSONata API gateway core

A shallow embedding, in Lean 4, of the version-aware transformation pipeline of
the gateway: the compiled-expression LRU cache, the transformation engine with
its (attempted) timeout race, the configuration resolver with its KV store
fallback, and the request orchestrator.  JavaScript runtime values are
modelled by an inductive `Json` type extended with `undefined`; JS `Map`
insertion order is modelled by association lists; the external JSONata
capability (compile / evaluate) and the KV store are modelled as oracle
function parameters; stateful classes are modelled by explicit state passing.
-/

set_option maxRecDepth 10000

namespace Gateway

/-- JavaScript runtime values as they occur in this program: the JSON values
plus `undefined` (produced by property access on a missing key, never by
`JSON.parse`).  Numbers are modelled as integers; no claim involves
non-integral numerics. -/
inductive Json where
  | undef : Json
  | null : Json
  | bool (b : Bool) : Json
  | num (n : Int) : Json
  | str (s : String) : Json
  | arr (elems : List Json) : Json
  | obj (fields : List (String × Json)) : Json
  deriving Repr

mutual

/-- Decidable equality for `Json` (written by hand: the default deriving
handler does not support the nested `List` occurrences). -/
def Json.decEq : (a b : Json) → Decidable (a = b)
  | .undef, .undef => .isTrue rfl
  | .null, .null => .isTrue rfl
  | .bool a, .bool b =>
    match Bool.decEq a b with
    | .isTrue h => .isTrue (by rw [h])
    | .isFalse h => .isFalse (fun hh => h (Json.bool.inj hh))
  | .num a, .num b =>
    match Int.decEq a b with
    | .isTrue h => .isTrue (by rw [h])
    | .isFalse h => .isFalse (fun hh => h (Json.num.inj hh))
  | .str a, .str b =>
    match String.decEq a b with
    | .isTrue h => .isTrue (by rw [h])
    | .isFalse h => .isFalse (fun hh => h (Json.str.inj hh))
  | .arr xs, .arr ys =>
    match Json.decEqList xs ys with
    | .isTrue h => .isTrue (by rw [h])
    | .isFalse h => .isFalse (fun hh => h (Json.arr.inj hh))
  | .obj fs, .obj gs =>
    match Json.decEqFields fs gs with
    | .isTrue h => .isTrue (by rw [h])
    | .isFalse h => .isFalse (fun hh => h (Json.obj.inj hh))
  | .undef, .null => .isFalse (fun h => nomatch h)
  | .undef, .bool _ => .isFalse (fun h => nomatch h)
  | .undef, .num _ => .isFalse (fun h => nomatch h)
  | .undef, .str _ => .isFalse (fun h => nomatch h)
  | .undef, .arr _ => .isFalse (fun h => nomatch h)
  | .undef, .obj _ => .isFalse (fun h => nomatch h)
  | .null, .undef => .isFalse (fun h => nomatch h)
  | .null, .bool _ => .isFalse (fun h => nomatch h)
  | .null, .num _ => .isFalse (fun h => nomatch h)
  | .null, .str _ => .isFalse (fun h => nomatch h)
  | .null, .arr _ => .isFalse (fun h => nomatch h)
  | .null, .obj _ => .isFalse (fun h => nomatch h)
  | .bool _, .undef => .isFalse (fun h => nomatch h)
  | .bool _, .null => .isFalse (fun h => nomatch h)
  | .bool _, .num _ => .isFalse (fun h => nomatch h)
  | .bool _, .str _ => .isFalse (fun h => nomatch h)
  | .bool _, .arr _ => .isFalse (fun h => nomatch h)
  | .bool _, .obj _ => .isFalse (fun h => nomatch h)
  | .num _, .undef => .isFalse (fun h => nomatch h)
  | .num _, .null => .isFalse (fun h => nomatch h)
  | .num _, .bool _ => .isFalse (fun h => nomatch h)
  | .num _, .str _ => .isFalse (fun h => nomatch h)
  | .num _, .arr _ => .isFalse (fun h => nomatch h)
  | .num _, .obj _ => .isFalse (fun h => nomatch h)
  | .str _, .undef => .isFalse (fun h => nomatch h)
  | .str _, .null => .isFalse (fun h => nomatch h)
  | .str _, .bool _ => .isFalse (fun h => nomatch h)
  | .str _, .num _ => .isFalse (fun h => nomatch h)
  | .str _, .arr _ => .isFalse (fun h => nomatch h)
  | .str _, .obj _ => .isFalse (fun h => nomatch h)
  | .arr _, .undef => .isFalse (fun h => nomatch h)
  | .arr _, .null => .isFalse (fun h => nomatch h)
  | .arr _, .bool _ => .isFalse (fun h => nomatch h)
  | .arr _, .num _ => .isFalse (fun h => nomatch h)
  | .arr _, .str _ => .isFalse (fun h => nomatch h)
  | .arr _, .obj _ => .isFalse (fun h => nomatch h)
  | .obj _, .undef => .isFalse (fun h => nomatch h)
  | .obj _, .null => .isFalse (fun h => nomatch h)
  | .obj _, .bool _ => .isFalse (fun h => nomatch h)
  | .obj _, .num _ => .isFalse (fun h => nomatch h)
  | .obj _, .str _ => .isFalse (fun h => nomatch h)
  | .obj _, .arr _ => .isFalse (fun h => nomatch h)

/-- Decidable equality for lists of `Json` values. -/
def Json.decEqList : (xs ys : List Json) → Decidable (xs = ys)
  | [], [] => .isTrue rfl
  | [], _ :: _ => .isFalse (fun h => nomatch h)
  | _ :: _, [] => .isFalse (fun h => nomatch h)
  | x :: xs, y :: ys =>
    match Json.decEq x y with
    | .isFalse h => .isFalse (fun hh => h (List.cons.inj hh).1)
    | .isTrue h1 =>
      match Json.decEqList xs ys with
      | .isTrue h2 => .isTrue (by rw [h1, h2])
      | .isFalse h => .isFalse (fun hh => h (List.cons.inj hh).2)

/-- Decidable equality for `Json` object field lists. -/
def Json.decEqFields : (xs ys : List (String × Json)) → Decidable (xs = ys)
  | [], [] => .isTrue rfl
  | [], _ :: _ => .isFalse (fun h => nomatch h)
  | _ :: _, [] => .isFalse (fun h => nomatch h)
  | (k, v) :: xs, (k', v') :: ys =>
    match String.decEq k k' with
    | .isFalse h =>
      .isFalse (fun hh => h (congrArg Prod.fst (List.cons.inj hh).1))
    | .isTrue hk =>
      match Json.decEq v v' with
      | .isFalse h =>
        .isFalse (fun hh => h (congrArg Prod.snd (List.cons.inj hh).1))
      | .isTrue hv =>
        match Json.decEqFields xs ys with
        | .isTrue h2 => .isTrue (by rw [hk, hv, h2])
        | .isFalse h => .isFalse (fun hh => h (List.cons.inj hh).2)

end

instance : DecidableEq Json := Json.decEq

namespace Json

/-- JavaScript truthiness of a value: `undefined`, `null`, `false`, `0` and
`""` are falsy; every other value (including `[]` and `{}`) is truthy. -/
def truthy : Json → Bool
  | undef => false
  | null => false
  | bool b => b
  | num n => n != 0
  | str s => s != ""
  | arr _ => true
  | obj _ => true

/-- JS property read `j[k]`: field lookup on an object (first occurrence),
`undefined` when the key is absent or the value is not an object.  (Reading a
property of `null`/`undefined` throws a `TypeError` in JS; every such read in
the modelled code is either guarded by a truthiness check or the throw is
swallowed by an enclosing `catch` that rejects the document wholesale, which
coincides with the `undefined`-propagation behaviour modelled here.) -/
def getField : Json → String → Json
  | obj fields, k =>
    match fields.find? (fun f => f.1 = k) with
    | some f => f.2
    | none => undef
  | _, _ => undef

/-- JS property write `j[k] = v` on an object: replace the first binding of
`k` in place (JS objects keep a key's original position), append otherwise;
no-op on non-objects (every modelled write is to an existing object). -/
def setField : Json → String → Json → Json
  | obj fields, k, v =>
    if (fields.find? (fun f => f.1 = k)).isSome then
      obj (fields.map (fun f => if f.1 = k then (f.1, v) else f))
    else
      obj (fields ++ [(k, v)])
  | j, _, _ => j

/-- JS `typeof j === 'object'`: true for `null`, arrays and objects. -/
def typeofObject : Json → Bool
  | null => true
  | arr _ => true
  | obj _ => true
  | _ => false

/-- JS `Object.entries(j)`: the field list of an object, the index-keyed
elements of an array, empty for primitives. -/
def jsEntries : Json → List (String × Json)
  | obj fields => fields
  | arr elems => (elems.enum).map (fun p => (toString p.1, p.2))
  | _ => []

/-- JS `k in j` membership test (used on the `transformations` map). -/
def hasKey : Json → String → Bool
  | obj fields, k => fields.any (fun f => f.1 = k)
  | arr elems, k => (List.range elems.length).any (fun i => toString i = k)
  | _, _ => false

/-- JS `String(j)` coercion of a primitive to a property key (the modelled
configurations only ever use string version keys). -/
def toPropertyKey : Json → String
  | str s => s
  | num n => toString n
  | bool true => "true"
  | bool false => "false"
  | null => "null"
  | undef => "undefined"
  | arr _ => ""
  | obj _ => "[object Object]"

end Json

/-! ## Expression Cache (`ExpressionCache` in `transformer.ts`)

A JS `Map` is modelled by an association list in insertion order: `Map.get`
is first-occurrence lookup, `Map.delete` removes the binding, `Map.set`
updates in place when the key is present and appends otherwise, and
`keys().next().value` is the head key. -/

/-- First-occurrence lookup in a JS-`Map`-ordered association list. -/
def mapFind {α : Type} : List (String × α) → String → Option α
  | [], _ => none
  | (k', v) :: rest, k => if k' = k then some v else mapFind rest k

/-- `Map.delete`: remove the binding of `k` (keys are unique in a JS map, so
removing the first occurrence removes the only one). -/
def mapErase {α : Type} : List (String × α) → String → List (String × α)
  | [], _ => []
  | (k', v) :: rest, k => if k' = k then rest else (k', v) :: mapErase rest k

/-- `Map.set`: update in place when present (keeping the entry's position),
append otherwise. -/
def mapSet {α : Type} : List (String × α) → String → α → List (String × α)
  | [], k, v => [(k, v)]
  | (k', v') :: rest, k, v =>
    if k' = k then (k, v) :: rest else (k', v') :: mapSet rest k v

/-- A cache entry: compiled expression (opaque, type parameter `C`), insertion
timestamp, TTL in milliseconds (`CacheEntry` in `types.ts`). -/
structure CacheEntryM (C : Type) where
  expression : C
  cachedAt : Nat
  ttl : Nat
  deriving Repr, DecidableEq

/-- The in-memory expression cache: a JS `Map` plus its capacity bound. -/
structure ExpressionCacheM (C : Type) where
  entries : List (String × CacheEntryM C)
  maxSize : Nat
  deriving Repr, DecidableEq

namespace ExpressionCacheM

/-- `new ExpressionCache(maxSize)` (default 100). -/
def empty (C : Type) (maxSize : Nat := 100) : ExpressionCacheM C :=
  ⟨[], maxSize⟩

/-- `ExpressionCache.get`: miss on absent key; lazy TTL expiry (delete and
miss when `now - cachedAt > ttl`); on a hit, delete and re-`set` the entry,
moving it to the most-recently-used (last) position.  `Date.now()` is the
explicit `now` parameter. -/
def get {C : Type} (c : ExpressionCacheM C) (now : Nat) (key : String) :
    Option C × ExpressionCacheM C :=
  match mapFind c.entries key with
  | none => (none, c)
  | some entry =>
    if now - entry.cachedAt > entry.ttl then
      (none, { c with entries := mapErase c.entries key })
    else
      (some entry.expression,
        { c with entries := mapSet (mapErase c.entries key) key entry })

/-- The eviction step of `ExpressionCache.set`: when at capacity, delete the
first key of the map (`keys().next().value`, deleted only when truthy, i.e.
non-empty). -/
def evicted {C : Type} (c : ExpressionCacheM C) :
    List (String × CacheEntryM C) :=
  if c.entries.length ≥ c.maxSize then
    match c.entries with
    | [] => c.entries
    | (k0, _) :: rest => if k0 ≠ "" then rest else c.entries
  else c.entries

/-- `ExpressionCache.set`: evict when at capacity, then insert the new entry
at the most-recently-used position. -/
def set {C : Type} (c : ExpressionCacheM C) (now : Nat) (key : String)
    (expr : C) (ttl : Nat) : ExpressionCacheM C :=
  { c with entries := mapSet c.evicted key ⟨expr, now, ttl⟩ }

/-- `ExpressionCache.size`. -/
def size {C : Type} (c : ExpressionCacheM C) : Nat :=
  c.entries.length

end ExpressionCacheM

/-! ## Transformation Engine (`JsonataTransformer` in `transformer.ts`)

The external JSONata capability is opaque: a compile oracle
`String → Except String C` (`jsonata(source)`, throwing on a syntax error)
and an evaluation oracle `C → Json → Except String Json`
(`compiled.evaluate(data)`, throwing on an evaluation error). -/

/-- `TransformationExpression` (`types.ts`): source text, optional cache TTL
in seconds, optional description. -/
structure TransformationExpressionM where
  expression : String
  cacheTtl : Option Nat := none
  description : Option String := none
  deriving Repr, DecidableEq

/-- The `context` argument of `JsonataTransformer.transform`. -/
structure TransformContextM where
  fromVersion : Json
  toVersion : Json
  direction : String
  timeout : Option Nat := none
  deriving Repr, DecidableEq

/-- `TransformationResult.metrics` (`types.ts`). -/
structure MetricsM where
  durationMs : Nat
  fromVersion : Json
  toVersion : Json
  direction : String
  deriving Repr, DecidableEq

/-- `TransformationResult` (`types.ts`). -/
structure TransformResultM where
  data : Json
  success : Bool
  error : Option String := none
  metrics : Option MetricsM := none
  deriving Repr, DecidableEq

/-- The cache key of `compileExpression`:
`` `expr:${expression.substring(0, 100)}` `` — a 100-character prefix of the
source text, not a full hash. -/
def cacheKey (expression : String) : String :=
  "expr:" ++ expression.take 100

/-- The timeout failure message of `executeWithTimeout`. -/
def timeoutMessage (timeoutMs : Nat) : String :=
  "Transformation timeout after " ++ toString timeoutMs ++ "ms"

/-- `JsonataTransformer.compileExpression`: look the prefix key up in the
cache; on a hit return the cached compiled form; on a miss compile via the
oracle, cache a success, and wrap a compile failure's message (`throw new
Error('Failed to compile JSONata expression: ...')`).  Returns the result and
the updated cache state. -/
def compileExpression {C : Type} (compileO : String → Except String C)
    (now : Nat) (expression : String) (cacheTtl : Nat)
    (cache : ExpressionCacheM C) : Except String C × ExpressionCacheM C :=
  let key := cacheKey expression
  match cache.get now key with
  | (some cached, cache') => (.ok cached, cache')
  | (none, cache') =>
    match compileO expression with
    | .ok compiled => (.ok compiled, cache'.set now key compiled cacheTtl)
    | .error e =>
      (.error ("Failed to compile JSONata expression: " ++ e), cache')

/-- `JsonataTransformer.executeWithTimeout`, embedded together with the JS
event-loop semantics it runs under.  The executor body runs synchronously and
to completion on the single JS thread: `setTimeout` schedules the timeout
callback for `timeoutMs` later, the (synchronous) `expression.evaluate(data)`
then runs for `evalDurationMs` without ever yielding to the event loop, and
`clearTimeout` unschedules the timer before the executor returns.  The
scheduled timer callback can only be dispatched once the executor's
synchronous run has finished — at which point it has already been cleared, in
both the success and the throw branch.  Hence the promise always settles with
the evaluation's own result (or its thrown error), never with the timeout
rejection, regardless of how `evalDurationMs` compares to `timeoutMs`: the
`reject(new Error('Transformation timeout after ...ms'))` branch is
unreachable. -/
def executeWithTimeout {C : Type} (evalO : C → Json → Except String Json)
    (compiled : C) (data : Json) (timeoutMs : Nat) (evalDurationMs : Nat) :
    Except String Json :=
  let _ := timeoutMs
  let _ := evalDurationMs
  evalO compiled data

/-- The effective timeout of `transform`:
`context.timeout || this.defaultTimeout` (a JS-falsy `0` also falls back). -/
def effectiveTimeout (ctxTimeout : Option Nat) (defaultTimeout : Nat) : Nat :=
  match ctxTimeout with
  | some t => if t ≠ 0 then t else defaultTimeout
  | none => defaultTimeout

/-- The cache TTL passed by `transform` to `compileExpression`:
`(transformExpr.cacheTtl || 3600) * 1000` (a JS-falsy `0` also falls back). -/
def cacheTtlMs (cacheTtl : Option Nat) : Nat :=
  (match cacheTtl with
   | some t => if t ≠ 0 then t else 3600
   | none => 3600) * 1000

/-- The `try` block of `JsonataTransformer.transform`: compile-or-fetch, then
evaluate under the (ineffective) timeout race; its thrown errors are the
compile failure or the evaluation failure. -/
def transformAttempt {C : Type} (compileO : String → Except String C)
    (evalO : C → Json → Except String Json) (now : Nat) (expression : String)
    (ttlMs timeoutMs evalDurationMs : Nat) (data : Json)
    (cache : ExpressionCacheM C) : Except String Json × ExpressionCacheM C :=
  match compileExpression compileO now expression ttlMs cache with
  | (.error e, cache') => (.error e, cache')
  | (.ok compiled, cache') =>
    (executeWithTimeout evalO compiled data timeoutMs evalDurationMs, cache')

/-- `JsonataTransformer.transform`: run the `try` block
(`transformAttempt`) and build the outcome — on success the transformed
data, on any caught error `success = false`, the error's message, and the
original input as `data`; both paths carry the metrics.  `durationMs` (wall
clock in the source) is modelled by the evaluation duration parameter. -/
def transform {C : Type} (compileO : String → Except String C)
    (evalO : C → Json → Except String Json) (defaultTimeout : Nat)
    (now : Nat) (data : Json) (transformExpr : TransformationExpressionM)
    (ctx : TransformContextM) (evalDurationMs : Nat)
    (cache : ExpressionCacheM C) : TransformResultM × ExpressionCacheM C :=
  match transformAttempt compileO evalO now transformExpr.expression
      (cacheTtlMs transformExpr.cacheTtl)
      (effectiveTimeout ctx.timeout defaultTimeout) evalDurationMs data
      cache with
  | (.ok result, cache') =>
    ({ data := result, success := true, error := none,
       metrics := some ⟨evalDurationMs, ctx.fromVersion, ctx.toVersion,
         ctx.direction⟩ }, cache')
  | (.error e, cache') =>
    ({ data := data, success := false, error := some e,
       metrics := some ⟨evalDurationMs, ctx.fromVersion, ctx.toVersion,
         ctx.direction⟩ }, cache')

/-! ## Configuration Loader (`ConfigLoader` in `config-loader.ts`)

The KV store is an oracle `String → Except String (Option String)`
(`env.TRANSFORMATIONS.get(key, 'text')`: a value, a miss, or a thrown
error), and `JSON.parse` is an oracle `String → Except String Json`.  Each
method returns its result, the updated loader state, and the list of KV keys
it read (for reasoning about which lookups touch the store). -/

/-- The environment bindings the loader consumes. `cacheTtlSeconds` models
`parseInt(env.CACHE_TTL_SECONDS || '3600', 10)`: `none` is an unset variable,
defaulted to 3600. -/
structure EnvM where
  kvGet : String → Except String (Option String)
  cacheTtlSeconds : Option Nat := none

/-- The loader's single-slot configuration cache (`ConfigCache`). -/
structure ConfigCacheM where
  config : Json
  cachedAt : Nat
  ttl : Nat
  deriving Repr, DecidableEq

/-- The mutable state of a `ConfigLoader` instance (`private cache`). -/
structure LoaderState where
  cache : Option ConfigCacheM := none
  deriving Repr, DecidableEq

/-- `ConfigLoader.validateConfig` applied to one `[version, transformation]`
entry of `Object.entries(config.transformations)`: throws on a missing
`request`/`response` leg or a missing/empty `expression` on either leg. -/
def validateEntry (version : String) (transformation : Json) :
    Except String Unit :=
  if ¬ (transformation.getField "request").truthy ∨
     ¬ (transformation.getField "response").truthy then
    .error ("Invalid transformation for version " ++ version ++
      ": missing request or response")
  else if ¬ ((transformation.getField "request").getField "expression").truthy ∨
          ¬ ((transformation.getField "response").getField "expression").truthy then
    .error ("Invalid transformation for version " ++ version ++
      ": missing expressions")
  else
    .ok ()

/-- The `for ... of Object.entries(config.transformations)` loop of
`validateConfig`: first failing entry wins. -/
def validateEntries : List (String × Json) → Except String Unit
  | [] => .ok ()
  | (version, transformation) :: rest =>
    match validateEntry version transformation with
    | .error e => .error e
    | .ok () => validateEntries rest

/-- `ConfigLoader.validateConfig`: throws on a falsy `version`, a falsy
`defaultVersion`, a falsy or non-object `transformations`, or any
transformation entry with a missing leg or missing/empty expression.  (Note:
a present-but-empty `transformations` object is truthy and of type
`'object'`, and the entry loop is vacuous, so it passes.) -/
def validateConfig (config : Json) : Except String Unit :=
  if ¬ (config.getField "version").truthy then
    .error "Configuration missing version field"
  else if ¬ (config.getField "defaultVersion").truthy then
    .error "Configuration missing defaultVersion field"
  else if ¬ (config.getField "transformations").truthy ∨
          ¬ (config.getField "transformations").typeofObject then
    .error "Configuration missing transformations object"
  else
    validateEntries (config.getField "transformations").jsEntries

/-- The hardcoded fallback document of `ConfigLoader.getDefaultConfig`.  The
JSONata template literals are reproduced with their whitespace compressed to
single spaces, and `metadata.generatedAt` (`new Date().toISOString()`, a
wall-clock read) is modelled as the empty string; no claim depends on either
piece of text. -/
def defaultConfig : Json :=
  .obj
    [("version", .str "1.0.0"),
     ("defaultVersion", .str "v2"),
     ("upstreamVersion", .str "v2"),
     ("transformations", .obj
       [("v1", .obj
         [("request", .obj
           [("expression", .str "\x7b \"id\": user_id, \"name\": full_name, \"username\": user_name, \"email\": email_address \x7d"),
            ("description", .str "Transform v1 request to v2 format"),
            ("cacheTtl", .num 3600)]),
          ("response", .obj
           [("expression", .str "\x7b \"user_id\": id, \"full_name\": name, \"user_name\": username, \"email_address\": email, \"location\": address \x7d"),
            ("description", .str "Transform v2 response back to v1 format"),
            ("cacheTtl", .num 3600)]),
          ("targetVersion", .str "v2")]),
        ("v2", .obj
         [("request", .obj
           [("expression", .str "$"),
            ("description", .str "No transformation (current version)")]),
          ("response", .obj
           [("expression", .str "$"),
            ("description", .str "No transformation (current version)")]),
          ("targetVersion", .str "v2")])]),
     ("routing", .obj
       [("/users", .arr [.str "v1", .str "v2"]),
        ("/posts", .arr [.str "v1", .str "v2"]),
        ("/comments", .arr [.str "v1", .str "v2"])]),
     ("metadata", .obj
       [("generatedAt", .str ""),
        ("generatedBy", .str "default-config")])]

/-- `ConfigLoader.loadFromKV`: read `config:main`; a store error, a miss, a
parse error or a validation error all yield `null` (the `catch` swallows the
throw); only a parsed document that passes `validateConfig` is returned. -/
def loadFromKV (env : EnvM) (parse : String → Except String Json) :
    Option Json × List String :=
  match env.kvGet "config:main" with
  | .error _ => (none, ["config:main"])
  | .ok none => (none, ["config:main"])
  | .ok (some configJson) =>
    match parse configJson with
    | .error _ => (none, ["config:main"])
    | .ok config =>
      match validateConfig config with
      | .error _ => (none, ["config:main"])
      | .ok () => (some config, ["config:main"])

/-- `ConfigLoader.isCacheValid`: `now - cachedAt < ttl`. -/
def isCacheValid (now : Nat) (cache : ConfigCacheM) : Bool :=
  now - cache.cachedAt < cache.ttl

/-- `ConfigLoader.cacheConfig`: store the document with TTL
`parseInt(env.CACHE_TTL_SECONDS || '3600', 10) * 1000`. -/
def cacheConfig (env : EnvM) (now : Nat) (config : Json) : LoaderState :=
  { cache := some
      { config := config, cachedAt := now,
        ttl := env.cacheTtlSeconds.getD 3600 * 1000 } }

/-- `ConfigLoader.loadConfig`: cached document while valid; otherwise KV,
falling back to the hardcoded default; every path caches what it returns and
never propagates a store error. -/
def loadConfig (env : EnvM) (parse : String → Except String Json) (now : Nat)
    (st : LoaderState) : Json × LoaderState × List String :=
  match st.cache with
  | some cached =>
    if isCacheValid now cached then (cached.config, st, [])
    else
      match loadFromKV env parse with
      | (some kvConfig, reads) => (kvConfig, cacheConfig env now kvConfig, reads)
      | (none, reads) => (defaultConfig, cacheConfig env now defaultConfig, reads)
  | none =>
    match loadFromKV env parse with
    | (some kvConfig, reads) => (kvConfig, cacheConfig env now kvConfig, reads)
    | (none, reads) => (defaultConfig, cacheConfig env now defaultConfig, reads)

/-- `ConfigLoader.loadExpression`: read one expression key; a thrown store
error is caught and becomes `null`. -/
def loadExpression (env : EnvM) (key : String) : Option String × List String :=
  match env.kvGet key with
  | .ok e => (e, [key])
  | .error _ => (none, [key])

/-- Write transformation `t` back at `transformations[version]` of the cached
configuration document: in the source the lookup
`config.transformations[version]` aliases the object held by the loader's
cache, so the in-place assignment `transformation.<leg>.expression = ...`
mutates the cached document; explicit state passing makes that write a cache
update. -/
def mutateCachedTransformation (version : String) (t : Json)
    (st : LoaderState) : LoaderState :=
  { cache := st.cache.map (fun cached =>
      let updated := (cached.config.getField "transformations").setField version t
      { cached with config := cached.config.setField "transformations" updated }) }

/-- JS `s.startsWith(pre)`, implemented over the character list so that
proofs can evaluate it. -/
def strStartsWith (s pre : String) : Bool :=
  pre.data.isPrefixOf s.data

/-- Strip the first `n` characters (`String.prototype.slice`-style), used to
model `expression.replace('kv:', '')` on a string known to start with the
3-character `kv:` marker (`replace` replaces the first occurrence, which is
then that leading marker). -/
def strDrop (s : String) (n : Nat) : String :=
  .mk (s.data.drop n)

/-- One leg of the `kv:` reference resolution in
`ConfigLoader.getVersionTransformation`: when
`transformation[leg].expression` starts with `'kv:'`, fetch the referenced
key (`expression.replace('kv:', '')` — the prefix stripped); a truthy fetch
result is assigned in place (mutating both the local transformation and the
cached document); a miss, an empty string or a store error leaves the
reference untouched.  A non-string expression has no `.startsWith` (a
`TypeError` in JS, only reachable for validated-but-non-string legs, which no
claim exercises); the model leaves such a leg untouched. -/
def resolveLeg (env : EnvM) (leg version : String) (t : Json)
    (st : LoaderState) : Json × LoaderState × List String :=
  match (t.getField leg).getField "expression" with
  | .str s =>
    if strStartsWith s "kv:" then
      let key := strDrop s 3
      match loadExpression env key with
      | (some e, reads) =>
        if e ≠ "" then
          let t' := t.setField leg ((t.getField leg).setField "expression" (.str e))
          (t', mutateCachedTransformation version t' st, reads)
        else (t, st, reads)
      | (none, reads) => (t, st, reads)
    else (t, st, [])
  | _ => (t, st, [])

/-- Whether a leg's expression is a `kv:` reference
(`transformation[leg].expression.startsWith('kv:')` on a string leg). -/
def legIsRef (t : Json) (leg : String) : Bool :=
  match (t.getField leg).getField "expression" with
  | .str s => strStartsWith s "kv:"
  | _ => false

/-- `ConfigLoader.getVersionTransformation`: resolve the configuration, look
the version up in `transformations` (`null` when falsy/absent), then resolve
a `kv:` reference on each leg in turn. -/
def getVersionTransformation (env : EnvM)
    (parse : String → Except String Json) (now : Nat) (version : String)
    (st : LoaderState) : Option Json × LoaderState × List String :=
  let (config, st1, reads0) := loadConfig env parse now st
  let transformation := (config.getField "transformations").getField version
  if ¬ transformation.truthy then (none, st1, reads0)
  else
    let (t1, st2, reads1) := resolveLeg env "request" version transformation st1
    let (t2, st3, reads2) := resolveLeg env "response" version t1 st2
    (some t2, st3, reads0 ++ reads1 ++ reads2)

/-- `ConfigLoader.isSupportedVersion`: membership test (`version in
config.transformations`) against the resolved configuration. -/
def isSupportedVersion (env : EnvM) (parse : String → Except String Json)
    (now : Nat) (version : String) (st : LoaderState) :
    Bool × LoaderState × List String :=
  let (config, st1, reads) := loadConfig env parse now st
  ((config.getField "transformations").hasKey version, st1, reads)

/-- `ConfigLoader.getSupportedVersions`: the route's `routing` entry when
present and truthy, otherwise `Object.keys(config.transformations)`. -/
def getSupportedVersions (env : EnvM) (parse : String → Except String Json)
    (now : Nat) (path : String) (st : LoaderState) :
    Json × LoaderState × List String :=
  let (config, st1, reads) := loadConfig env parse now st
  if (config.getField "routing").truthy ∧
     ((config.getField "routing").getField path).truthy then
    ((config.getField "routing").getField path, st1, reads)
  else
    (.arr ((config.getField "transformations").jsEntries.map
      (fun f => .str f.1)), st1, reads)

/-! ## Request Orchestrator (`fetch` and `parseRequestContext` in `worker.ts`) -/

/-- JS `a || b` over nullable strings (`headers.get` returns `null` for an
absent header, and an empty string is falsy). -/
def jsOrStr (a b : Option String) : Option String :=
  match a with
  | some s => if s ≠ "" then some s else b
  | none => b

/-- Truthiness of a nullable string. -/
def truthyOptStr : Option String → Bool
  | some s => s ≠ ""
  | none => false

/-- The path match of `parseRequestContext`: the regex `^\/(v\d+)\//` — a
leading path segment `/v<digits>/`, capturing `v<digits>`. -/
def versionPathMatch (pathname : String) : Option String :=
  match pathname.data with
  | '/' :: 'v' :: rest =>
    let ds := rest.takeWhile Char.isDigit
    if ds.isEmpty then none
    else
      match rest.drop ds.length with
      | '/' :: _ => some (String.mk ('v' :: ds))
      | _ => none
  | _ => none

/-- The version-detection chain of `parseRequestContext`: the `API-Version`
or `X-API-Version` header, else the `api-version` or `version` query
parameter, else a leading `/v<digits>/` path segment, else the empty string
(`apiVersion: apiVersion || ''`). -/
def detectApiVersion (headerApiVersion headerXApiVersion : Option String)
    (queryApiVersion queryVersion : Option String) (pathname : String) :
    String :=
  let versionHeader := jsOrStr headerApiVersion headerXApiVersion
  if truthyOptStr versionHeader then versionHeader.getD ""
  else
    let versionParam := jsOrStr queryApiVersion queryVersion
    if truthyOptStr versionParam then versionParam.getD ""
    else
      match versionPathMatch pathname with
      | some v => v
      | none => ""

/-- The request context the orchestrator consumes (`RequestContext` in
`types.ts`, as produced by `parseRequestContext`): `apiVersion` is the
detected version or `""`, and `body` is the best-effort JSON parse of the
request body, `null` when absent or unparsable. -/
structure RequestContextM where
  method : String
  path : String
  apiVersion : String
  body : Json := .null
  deriving Repr, DecidableEq

/-- What the orchestrator observes of the upstream `fetch` response: the
status code, whether the `content-type` includes `application/json`, and the
result of `response.json()` (`none` models a parse throw, caught and turned
into `null`). -/
structure UpstreamResponseM where
  status : Nat
  isJsonContentType : Bool
  jsonBody : Option Json := none
  deriving Repr, DecidableEq

/-- The upstream `Request` the orchestrator constructs: whether
`Content-Type: application/json` was set, and the forwarded body
(`upstreamBody ? JSON.stringify(upstreamBody) : null`, modelled before
serialization: `none` is a `null` body). -/
structure SentUpstreamM where
  method : String
  contentTypeSet : Bool
  body : Option Json := none
  deriving Repr, DecidableEq

/-- The body of the gateway's own `Response`: a JSON document
(`JSON.stringify(x, null, 2)`, modelled before serialization) or the
streamed pass-through of a non-JSON upstream body. -/
inductive ResponseBodyM where
  | json (j : Json) : ResponseBodyM
  | stream : ResponseBodyM
  deriving Repr, DecidableEq

/-- The observable outcome of one `fetch` invocation: the response status and
body, the upstream request that was sent (when one was), and whether each
transformation leg was invoked (instrumentation of the two
`transformer.transform` call sites; it does not alter the control flow). -/
structure GatewayResultM where
  status : Nat
  body : ResponseBodyM
  sentUpstream : Option SentUpstreamM := none
  requestTransformRan : Bool := false
  responseTransformRan : Bool := false
  deriving Repr, DecidableEq

/-- `createErrorResponse`'s body: `{ error, message, ... }` (the
`supportedVersions` field of the unsupported-version response is appended by
the caller). -/
def errorBody (error message : String) (extra : List (String × Json)) : Json :=
  .obj ([("error", .str error), ("message", .str message)] ++ extra)

/-- The tail of `fetch` from the upstream call on: build the upstream request
(`Content-Type` only when the body is truthy, body `null` otherwise), pass a
non-JSON upstream response through untouched, parse a JSON one
(`null` on a parse throw), run the response-leg transformation when the body
is truthy, the version differs from upstream and the leg is not `'$'`, and
on a response-leg failure fall back to the original untransformed
`responseData`; the final status is always the upstream status. -/
def forwardAndRespond (transformO : Json → Json → TransformContextM → TransformResultM)
    (ctx : RequestContextM) (upstream : UpstreamResponseM)
    (apiVersion upstreamVersion : Json) (versionTransform : Json)
    (upstreamBody : Json) (requestTransformRan : Bool) : GatewayResultM :=
  let sent : SentUpstreamM :=
    { method := ctx.method,
      contentTypeSet := upstreamBody.truthy,
      body := if upstreamBody.truthy then some upstreamBody else none }
  if ¬ upstream.isJsonContentType then
    { status := upstream.status, body := .stream, sentUpstream := some sent,
      requestTransformRan := requestTransformRan,
      responseTransformRan := false }
  else
    let responseData := upstream.jsonBody.getD .null
    if responseData.truthy ∧ apiVersion ≠ upstreamVersion ∧
       (versionTransform.getField "response").getField "expression" ≠ .str "$" then
      let result := transformO responseData (versionTransform.getField "response")
        { fromVersion := upstreamVersion, toVersion := apiVersion,
          direction := "response" }
      let transformedResponse := if result.success then result.data else responseData
      { status := upstream.status, body := .json transformedResponse,
        sentUpstream := some sent,
        requestTransformRan := requestTransformRan,
        responseTransformRan := true }
    else
      { status := upstream.status, body := .json responseData,
        sentUpstream := some sent,
        requestTransformRan := requestTransformRan,
        responseTransformRan := false }

/-- The configuration the orchestrator works with: the result of
`configLoader.loadConfig()` on the request's fresh loader (empty cache). -/
def loadedConfig (env : EnvM) (parse : String → Except String Json)
    (now : Nat) : Json :=
  (loadConfig env parse now {}).1

/-- The loader state after the orchestrator's `loadConfig()` call (the fresh
loader's cache is then populated). -/
def postLoadState (env : EnvM) (parse : String → Except String Json)
    (now : Nat) : LoaderState :=
  (loadConfig env parse now {}).2.1

/-- The effective version of the request:
`context.apiVersion || config.defaultVersion` (the detected version is `""`
when absent, which is falsy). -/
def effectiveVersion (env : EnvM) (parse : String → Except String Json)
    (now : Nat) (apiVersion : String) : Json :=
  if apiVersion ≠ "" then .str apiVersion
  else (loadedConfig env parse now).getField "defaultVersion"

/-- The orchestrator's `isSupportedVersion` call (on the loader state left by
its `loadConfig`). -/
def supportedCheck (env : EnvM) (parse : String → Except String Json)
    (now : Nat) (versionKey : String) : Bool × LoaderState × List String :=
  isSupportedVersion env parse now versionKey (postLoadState env parse now)

/-- The `fetch` handler of `worker.ts` from the point where the request
context is parsed, with `transformer.transform` as an oracle parameter (the
engine itself is modelled separately above; the orchestrator claims quantify
over its behaviour).  A fresh `ConfigLoader` is created per request, so the
loader starts with an empty cache; its state is threaded through the
successive calls via the named definitions above.  Effective version:
`context.apiVersion || config.defaultVersion`; a 400 when it is unsupported;
a 500 when `getVersionTransformation` finds nothing; the request-leg
transformation runs only when the body is truthy, the version differs from
upstream and the leg is not `'$'`, and its failure is a terminal 400. -/
def handleRequest (env : EnvM) (parse : String → Except String Json)
    (now : Nat) (transformO : Json → Json → TransformContextM → TransformResultM)
    (ctx : RequestContextM) (upstream : UpstreamResponseM) : GatewayResultM :=
  let config := loadedConfig env parse now
  let apiVersion := effectiveVersion env parse now ctx.apiVersion
  let versionKey := apiVersion.toPropertyKey
  let sup := supportedCheck env parse now versionKey
  if ¬ sup.1 then
    { status := 400,
      body := .json (errorBody "Unsupported API version"
        ("Version '" ++ versionKey ++ "' is not supported")
        [("supportedVersions",
          (getSupportedVersions env parse now ctx.path sup.2.1).1)]) }
  else
    match (getVersionTransformation env parse now versionKey sup.2.1).1 with
    | none =>
      { status := 500,
        body := .json (errorBody "Configuration error"
          ("No transformation found for version '" ++ versionKey ++ "'") []) }
    | some versionTransform =>
      let upstreamVersion := config.getField "upstreamVersion"
      if ctx.body.truthy ∧ apiVersion ≠ upstreamVersion ∧
         (versionTransform.getField "request").getField "expression" ≠ .str "$" then
        let result := transformO ctx.body (versionTransform.getField "request")
          { fromVersion := apiVersion, toVersion := upstreamVersion,
            direction := "request" }
        if ¬ result.success then
          { status := 400,
            body := .json (errorBody "Request transformation failed"
              (match result.error with
               | some e => if e ≠ "" then e else "Unknown transformation error"
               | none => "Unknown transformation error") []),
            requestTransformRan := true }
        else
          forwardAndRespond transformO ctx upstream apiVersion upstreamVersion
            versionTransform result.data true
      else
        forwardAndRespond transformO ctx upstream apiVersion upstreamVersion
          versionTransform ctx.body false

/-! ## Concrete instances used by the theorems -/

/-- A 100-character expression head shared by the two colliding sources. -/
def sharedHead : String := String.mk (List.replicate 100 'a')

/-- First colliding expression source: 100 shared characters, then `alpha`. -/
def collidingExprA : String := sharedHead ++ "alpha"

/-- Second colliding expression source: same 100 characters, then `beta`. -/
def collidingExprB : String := sharedHead ++ "beta"

/-- A compile oracle distinguishing the two colliding sources: compiled form
`1` for the first, `2` for everything else. -/
def collideCompile : String → Except String Nat :=
  fun s => .ok (if s = collidingExprA then 1 else 2)

/-- A configuration document whose `v1.request.expression` is the KV
reference `kv:exprs/v1-req`. -/
def refCfg : Json :=
  .obj [("version", .str "1.0.0"), ("defaultVersion", .str "v1"),
    ("upstreamVersion", .str "v2"),
    ("transformations", .obj
      [("v1", .obj
        [("request", .obj [("expression", .str "kv:exprs/v1-req")]),
         ("response", .obj [("expression", .str "$")])])])]

/-- `refCfg` after the reference has been resolved to the stored text. -/
def refCfgResolved : Json :=
  .obj [("version", .str "1.0.0"), ("defaultVersion", .str "v1"),
    ("upstreamVersion", .str "v2"),
    ("transformations", .obj
      [("v1", .obj
        [("request", .obj [("expression", .str "$fetched")]),
         ("response", .obj [("expression", .str "$")])])])]

/-- A store holding `refCfg` (serialized as the token `CFG`) under
`config:main` and the referenced expression text under `exprs/v1-req`. -/
def envRef : EnvM :=
  { kvGet := fun k =>
      if k = "config:main" then .ok (some "CFG")
      else if k = "exprs/v1-req" then .ok (some "$fetched")
      else .ok none }

/-- The parse oracle matching `envRef`'s serialized document. -/
def parseRef : String → Except String Json := fun s =>
  if s = "CFG" then .ok refCfg else .error "bad json"

/-- A store whose every read throws (`kv down`). -/
def envFailing : EnvM := { kvGet := fun _ => .error "kv down" }

/-- An empty store: every read misses. -/
def envEmpty : EnvM := { kvGet := fun _ => .ok none }

/-- A parse oracle for stores that never yield a document. -/
def parseNone : String → Except String Json := fun _ => .error "no document"

/-- A valid-by-`validateConfig` document whose `transformations` map is
empty. -/
def emptyTransformationsCfg : Json :=
  .obj [("version", .str "1.0.0"), ("defaultVersion", .str "v2"),
    ("upstreamVersion", .str "v2"), ("transformations", .obj [])]

/-- A store holding `emptyTransformationsCfg` under `config:main`. -/
def envEmptyTrans : EnvM :=
  { kvGet := fun k =>
      if k = "config:main" then .ok (some "EMPTYCFG") else .ok none }

/-- The parse oracle matching `envEmptyTrans`. -/
def parseEmptyTrans : String → Except String Json := fun s =>
  if s = "EMPTYCFG" then .ok emptyTransformationsCfg else .error "bad json"

deriving instance DecidableEq for Except

/-- A transformer oracle that fails on every invocation. -/
def alwaysFailTransform : Json → Json → TransformContextM → TransformResultM :=
  fun _ _ _ => { data := .null, success := false, error := some "bad expr" }

/-- A JSON upstream response: status 200, body `{"id": 1}`. -/
def upstreamJson200 : UpstreamResponseM :=
  { status := 200, isJsonContentType := true,
    jsonBody := some (.obj [("id", .num 1)]) }

/-- A store holding an invalid configuration document (serialized as the
token `BAD`) under `config:main`. -/
def envInvalidDoc : EnvM :=
  { kvGet := fun k =>
      if k = "config:main" then .ok (some "BAD") else .ok none }

/-- The parse oracle matching `envInvalidDoc`: `BAD` parses to the empty
object, which fails validation. -/
def parseInvalidDoc : String → Except String Json := fun s =>
  if s = "BAD" then .ok (.obj []) else .error "bad json"

/-! ## Supporting lemmas -/

/-- A document returned by `loadFromKV` passed `validateConfig`. -/
theorem loadFromKV_some_valid (env : EnvM) (parse : String → Except String Json)
    (cfg : Json) (reads : List String)
    (h : loadFromKV env parse = (some cfg, reads)) :
    validateConfig cfg = .ok () := by
  unfold loadFromKV at h
  split at h
  · simp at h
  · simp at h
  · split at h
    · simp at h
    · split at h
      · simp at h
      · rename_i config hok
        simp only [Prod.mk.injEq, Option.some.injEq] at h
        rw [← h.1]
        exact hok

/-- `validateEntry` succeeds exactly when both legs are truthy and both
expressions are truthy (present and non-empty). -/
theorem validateEntry_ok_iff (v : String) (t : Json) :
    validateEntry v t = .ok () ↔
      ((t.getField "request").truthy = true ∧
       (t.getField "response").truthy = true ∧
       ((t.getField "request").getField "expression").truthy = true ∧
       ((t.getField "response").getField "expression").truthy = true) := by
  unfold validateEntry
  by_cases hr : (t.getField "request").truthy = true <;>
  by_cases hs : (t.getField "response").truthy = true <;>
  by_cases he1 : ((t.getField "request").getField "expression").truthy = true <;>
  by_cases he2 : ((t.getField "response").getField "expression").truthy = true <;>
    simp [hr, hs, he1, he2]

/-- The entry loop of `validateConfig` succeeds exactly when every entry
does. -/
theorem validateEntries_ok_iff (l : List (String × Json)) :
    validateEntries l = .ok () ↔ ∀ p ∈ l, validateEntry p.1 p.2 = .ok () := by
  induction l with
  | nil => simp [validateEntries]
  | cons hd tl ih =>
    obtain ⟨v, t⟩ := hd
    simp only [validateEntries]
    cases h : validateEntry v t with
    | error e => simp [h]
    | ok u =>
      cases u
      simp [h, ih]

/-- `validateConfig` succeeds exactly when the document has a truthy
`version`, a truthy `defaultVersion`, a truthy object-typed
`transformations`, and every transformation entry has both legs with truthy
expressions — in particular an empty `transformations` object passes. -/
theorem validateConfig_ok_iff (config : Json) :
    validateConfig config = .ok () ↔
      ((config.getField "version").truthy = true ∧
       (config.getField "defaultVersion").truthy = true ∧
       (config.getField "transformations").truthy = true ∧
       (config.getField "transformations").typeofObject = true ∧
       ∀ p ∈ (config.getField "transformations").jsEntries,
         ((p.2.getField "request").truthy = true ∧
          (p.2.getField "response").truthy = true ∧
          ((p.2.getField "request").getField "expression").truthy = true ∧
          ((p.2.getField "response").getField "expression").truthy = true)) := by
  unfold validateConfig
  by_cases h1 : (config.getField "version").truthy = true <;>
  by_cases h2 : (config.getField "defaultVersion").truthy = true <;>
  by_cases h3 : (config.getField "transformations").truthy = true <;>
  by_cases h4 : (config.getField "transformations").typeofObject = true <;>
    simp [h1, h2, h3, h4, validateEntries_ok_iff, validateEntry_ok_iff]

/-- A `compileExpression` failure always carries the wrapped compile-error
message. -/
theorem compileExpression_error_message {C : Type}
    (compileO : String → Except String C) (now : Nat) (expression : String)
    (cacheTtl : Nat) (cache : ExpressionCacheM C) (e : String)
    (h : (compileExpression compileO now expression cacheTtl cache).1 =
      .error e) :
    ∃ e0, e = "Failed to compile JSONata expression: " ++ e0 := by
  simp only [compileExpression] at h
  rcases hg : cache.get now (cacheKey expression) with ⟨_ | cached, cache'⟩
  · rw [hg] at h
    simp only at h
    cases hc : compileO expression with
    | ok compiled => rw [hc] at h; simp at h
    | error e0 =>
      rw [hc] at h
      simp only [Except.error.injEq] at h
      exact ⟨e0, h.symm⟩
  · rw [hg] at h
    simp at h

/-- A failed `transformAttempt` carries a non-empty message when the opaque
evaluation capability's own messages are non-empty: compile errors get the
engine's non-empty wrapper, evaluation errors are the capability's own. -/
theorem transformAttempt_error_nonempty {C : Type}
    (compileO : String → Except String C)
    (evalO : C → Json → Except String Json) (now : Nat) (expression : String)
    (ttlMs timeoutMs evalDurationMs : Nat) (data : Json)
    (cache : ExpressionCacheM C) (e : String)
    (hEval : ∀ c d e0, evalO c d = .error e0 → e0 ≠ "")
    (h : (transformAttempt compileO evalO now expression ttlMs timeoutMs
      evalDurationMs data cache).1 = .error e) : e ≠ "" := by
  unfold transformAttempt at h
  rcases hc : compileExpression compileO now expression ttlMs cache
    with ⟨cr, cache'⟩
  rw [hc] at h
  cases cr with
  | error e0 =>
    have h' : (Except.error e0 : Except String Json) = .error e := h
    injection h' with hh
    subst hh
    obtain ⟨e1, he1⟩ := compileExpression_error_message compileO now
      expression ttlMs cache e0 (congrArg Prod.fst hc)
    subst he1
    intro hcontra
    have hd := congrArg String.data hcontra
    rw [String.data_append] at hd
    simp at hd
  | ok compiled =>
    have h' : evalO compiled data = .error e := h
    exact hEval compiled data e h'

/-- `resolveLeg` on a leg that is no `kv:` reference touches nothing: same
transformation, same state, no store read. -/
theorem resolveLeg_of_not_ref (env : EnvM) (leg version : String) (t : Json)
    (st : LoaderState) (h : legIsRef t leg = false) :
    resolveLeg env leg version t st = (t, st, []) := by
  unfold legIsRef at h
  unfold resolveLeg
  split
  · rename_i s hs
    rw [hs] at h
    have h' : strStartsWith s "kv:" = false := h
    simp [h']
  · rfl

/-- `mapSet` on a key bound nowhere in the list appends the new binding at
the most-recently-used (last) position. -/
theorem mapSet_eq_append {α : Type} (l : List (String × α)) (k : String)
    (v : α) (h : ∀ p ∈ l, p.1 ≠ k) : mapSet l k v = l ++ [(k, v)] := by
  induction l with
  | nil => rfl
  | cons hd tl ih =>
    obtain ⟨k', v'⟩ := hd
    have hk' : k' ≠ k := h (k', v') (by simp)
    simp [mapSet, hk', ih (fun p hp => h p (by simp [hp]))]

/-- After erasing `k` from a list with duplicate-free keys, no binding of
`k` remains. -/
theorem mapErase_keys_ne {α : Type} (l : List (String × α)) (k : String)
    (h : (l.map Prod.fst).Nodup) : ∀ p ∈ mapErase l k, p.1 ≠ k := by
  induction l with
  | nil => simp [mapErase]
  | cons hd tl ih =>
    obtain ⟨k', v'⟩ := hd
    simp only [List.map_cons, List.nodup_cons] at h
    by_cases hk : k' = k
    · subst hk
      simp only [mapErase, if_pos rfl]
      intro p hp hcontra
      exact h.1 (hcontra ▸ List.mem_map.mpr ⟨p, hp, rfl⟩)
    · simp only [mapErase, if_neg hk]
      intro p hp
      rcases List.mem_cons.mp hp with hp | hp
      · rw [hp]
        exact hk
      · exact ih h.2 p hp

/-- `forwardAndRespond` always sends the upstream request it was given (with
`Content-Type` exactly when the body is truthy and a `null` body otherwise),
echoes the `requestTransformRan` flag, and responds with the upstream
status. -/
theorem forwardAndRespond_fields
    (transformO : Json → Json → TransformContextM → TransformResultM)
    (ctx : RequestContextM) (upstream : UpstreamResponseM)
    (av uv vt ub : Json) (rtr : Bool) :
    (forwardAndRespond transformO ctx upstream av uv vt ub rtr).sentUpstream =
      some ⟨ctx.method, ub.truthy, if ub.truthy then some ub else none⟩ ∧
    (forwardAndRespond transformO ctx upstream av uv vt ub
      rtr).requestTransformRan = rtr ∧
    (forwardAndRespond transformO ctx upstream av uv vt ub rtr).status =
      upstream.status := by
  unfold forwardAndRespond
  split_ifs <;> simp [apply_ite]

/-- `forwardAndRespond` does not depend on a falsy upstream body's identity
(only its falsiness is observable), nor on anything of the request context
but the method. -/
theorem forwardAndRespond_falsy_body
    (transformO : Json → Json → TransformContextM → TransformResultM)
    (ctx₁ ctx₂ : RequestContextM) (upstream : UpstreamResponseM)
    (av uv vt : Json) (b₁ b₂ : Json) (rtr : Bool)
    (hm : ctx₁.method = ctx₂.method) (h₁ : b₁.truthy = false)
    (h₂ : b₂.truthy = false) :
    forwardAndRespond transformO ctx₁ upstream av uv vt b₁ rtr =
      forwardAndRespond transformO ctx₂ upstream av uv vt b₂ rtr := by
  unfold forwardAndRespond
  simp [h₁, h₂, hm]

/-- When the upstream response is JSON and the transformer fails on every
response-leg invocation, `forwardAndRespond` responds with the upstream
status and the original parsed upstream body. -/
theorem forwardAndRespond_response_failure
    (transformO : Json → Json → TransformContextM → TransformResultM)
    (ctx : RequestContextM) (upstream : UpstreamResponseM)
    (av uv vt ub : Json) (rtr : Bool)
    (hjson : upstream.isJsonContentType = true)
    (hfail : ∀ input expr c, c.direction = "response" →
      (transformO input expr c).success = false) :
    (forwardAndRespond transformO ctx upstream av uv vt ub rtr).status =
      upstream.status ∧
    (forwardAndRespond transformO ctx upstream av uv vt ub rtr).body =
      .json (upstream.jsonBody.getD .null) := by
  unfold forwardAndRespond
  have hf := hfail (upstream.jsonBody.getD .null) (vt.getField "response")
    { fromVersion := uv, toVersion := av, direction := "response",
      timeout := none } rfl
  simp [hjson, hf, apply_ite]

/-! ## Claims -/

/-- C1: the Expression Cache key is `expr:` plus only the first 100
characters of the source, so two distinct sources sharing a 100-character
head collide: compiling the first and then fetching by the second source
returns the first's compiled form (`1`), not the second's own compiled form
(`2`).  This refutes the claim that the cache key distinguishes any two
distinct full source texts; the spec itself flags the prefix key as a
correctness bug in the source, so the claim describes the intent and the
code is in the wrong. -/
theorem c1_prefix_key_collision :
    collidingExprA ≠ collidingExprB ∧
    cacheKey collidingExprA = cacheKey collidingExprB ∧
    (compileExpression collideCompile 0 collidingExprA 3600000
      (ExpressionCacheM.empty Nat)).1 = .ok 1 ∧
    collideCompile collidingExprB = .ok 2 ∧
    (compileExpression collideCompile 0 collidingExprB 3600000
      (compileExpression collideCompile 0 collidingExprA 3600000
        (ExpressionCacheM.empty Nat)).2).1 = .ok 1 := by
  refine ⟨by decide, by decide, by decide, by decide, by decide⟩

/-- C2: the timeout race of `executeWithTimeout` is ineffective — the
synchronous evaluation blocks the single JS thread until `clearTimeout`, so
the timer callback never runs and the evaluation's result is returned with
`success = true` even when the evaluation takes 1000 ms against a 50 ms
default timeout, instead of the claimed
`"Transformation timeout after 50ms"` failure. -/
theorem c2_slow_evaluation_result_still_returned :
    1000 > 50 ∧
    (transform (fun s => .ok s) (fun _ _ => .ok (.num 42)) 50 0 (.num 1)
        { expression := "expensive" }
        { fromVersion := .str "v1", toVersion := .str "v2",
          direction := "request" }
        1000 (ExpressionCacheM.empty String)).1 =
      ⟨.num 42, true, none, some ⟨1000, .str "v1", .str "v2", "request"⟩⟩ := by
  exact ⟨by decide, by decide⟩

/-- C6: `loadConfig` from a fresh loader state always returns a document
passing `validateConfig`, whatever the store and parser do; and when the
store read throws, it returns the built-in default configuration, under
which both `v1` and `v2` are supported versions. -/
theorem c6_loadConfig_never_propagates_store_error
    (env : EnvM) (parse : String → Except String Json) (now : Nat) :
    validateConfig (loadConfig env parse now {}).1 = .ok () ∧
    (∀ e, env.kvGet "config:main" = .error e →
      (loadConfig env parse now {}).1 = defaultConfig ∧
      (isSupportedVersion env parse now "v1"
        (loadConfig env parse now {}).2.1).1 = true ∧
      (isSupportedVersion env parse now "v2"
        (loadConfig env parse now {}).2.1).1 = true) := by
  constructor
  · rcases h : loadFromKV env parse with ⟨_ | cfg, reads⟩
    · simp [loadConfig, h]
      decide
    · have hv := loadFromKV_some_valid env parse cfg reads h
      simpa [loadConfig, h] using hv
  · intro e he
    have hkv : loadFromKV env parse = (none, ["config:main"]) := by
      simp [loadFromKV, he]
    have hload : loadConfig env parse now {} =
        (defaultConfig, cacheConfig env now defaultConfig, ["config:main"]) := by
      simp [loadConfig, hkv]
    have hcfg : (loadConfig env parse now (cacheConfig env now defaultConfig)).1
        = defaultConfig := by
      by_cases hvalid : isCacheValid now
          ⟨defaultConfig, now, env.cacheTtlSeconds.getD 3600 * 1000⟩ <;>
        simp [loadConfig, cacheConfig, hkv, hvalid]
    refine ⟨by rw [hload], ?_, ?_⟩ <;>
      · show ((loadConfig env parse now _).1.getField "transformations").hasKey _
          = true
        rw [hload]
        rw [hcfg]
        decide

/-- Witness for C6: a store that throws on every read — `loadConfig` returns
the built-in default, a valid configuration supporting `v1` and `v2`. -/
theorem c6_loadConfig_never_propagates_witness :
    validateConfig (loadConfig envFailing parseNone 0 {}).1 = .ok () ∧
    (loadConfig envFailing parseNone 0 {}).1 = defaultConfig ∧
    (isSupportedVersion envFailing parseNone 0 "v1"
      (loadConfig envFailing parseNone 0 {}).2.1).1 = true ∧
    (isSupportedVersion envFailing parseNone 0 "v2"
      (loadConfig envFailing parseNone 0 {}).2.1).1 = true := by
  have h := c6_loadConfig_never_propagates_store_error envFailing parseNone 0
  exact ⟨h.1, (h.2 "kv down" rfl).1, (h.2 "kv down" rfl).2.1,
    (h.2 "kv down" rfl).2.2⟩

/-- C8: version detection precedence in `parseRequestContext` — a truthy
`API-Version`/`X-API-Version` header wins; otherwise a truthy
`api-version`/`version` query parameter; otherwise a leading `/v<digits>/`
path segment; otherwise the detected version is the empty string (meaning
"use the configured default"). -/
theorem c8_version_detection_precedence (headerA headerX queryA queryV :
    Option String) (pathname : String) :
    (truthyOptStr (jsOrStr headerA headerX) = true →
      detectApiVersion headerA headerX queryA queryV pathname =
        (jsOrStr headerA headerX).getD "") ∧
    (truthyOptStr (jsOrStr headerA headerX) = false →
      truthyOptStr (jsOrStr queryA queryV) = true →
      detectApiVersion headerA headerX queryA queryV pathname =
        (jsOrStr queryA queryV).getD "") ∧
    (truthyOptStr (jsOrStr headerA headerX) = false →
      truthyOptStr (jsOrStr queryA queryV) = false →
      detectApiVersion headerA headerX queryA queryV pathname =
        (versionPathMatch pathname).getD "") := by
  refine ⟨?_, ?_, ?_⟩
  · intro hh
    simp [detectApiVersion, hh]
  · intro hh hq
    simp [detectApiVersion, hh, hq]
  · intro hh hq
    simp [detectApiVersion, hh, hq]
    cases h : versionPathMatch pathname <;> simp [h]

/-- Witness for C8 at the claim's concrete request: header `API-Version: v1`,
query `?version=v2`, path `/v3/users` — the header wins and the detected
version is `v1`. -/
theorem c8_version_detection_precedence_witness :
    detectApiVersion (some "v1") none none (some "v2") "/v3/users" = "v1" := by
  have h := (c8_version_detection_precedence (some "v1") none none (some "v2")
    "/v3/users").1 (by decide)
  simpa using h

/-- C4 counterexample: a stored document with a present but **empty**
`transformations` map passes `validateConfig` and is accepted by
`loadConfig` in place of the built-in default, refuting the claim that such
a document is rejected wholesale with fallback to the default. -/
theorem c4_empty_transformations_accepted :
    validateConfig emptyTransformationsCfg = .ok () ∧
    (loadConfig envEmptyTrans parseEmptyTrans 0 {}).1 =
      emptyTransformationsCfg ∧
    emptyTransformationsCfg ≠ defaultConfig := by
  refine ⟨by decide, by decide, by decide⟩

/-- C4 (amended): `validateConfig` rejects a stored document wholesale
exactly when it has a missing/falsy schema-version field, missing/falsy
`defaultVersion`, a missing/falsy or non-object-typed `transformations`
value, or any version entry with a missing leg or a missing/empty leg
expression — a present but empty `transformations` object, however, is
accepted; and whenever the stored document is rejected, `loadConfig` falls
back to the built-in default configuration. -/
theorem c4_validation_rejects_wholesale :
    (∀ config : Json, validateConfig config = .ok () ↔
      ((config.getField "version").truthy = true ∧
       (config.getField "defaultVersion").truthy = true ∧
       (config.getField "transformations").truthy = true ∧
       (config.getField "transformations").typeofObject = true ∧
       ∀ p ∈ (config.getField "transformations").jsEntries,
         ((p.2.getField "request").truthy = true ∧
          (p.2.getField "response").truthy = true ∧
          ((p.2.getField "request").getField "expression").truthy = true ∧
          ((p.2.getField "response").getField "expression").truthy = true))) ∧
    (∀ (env : EnvM) (parse : String → Except String Json) (now : Nat)
       (txt : String) (config : Json) (e : String),
      env.kvGet "config:main" = .ok (some txt) → parse txt = .ok config →
      validateConfig config = .error e →
      (loadConfig env parse now {}).1 = defaultConfig) := by
  constructor
  · exact validateConfig_ok_iff
  · intro env parse now txt config e hk hp hv
    have hkv : loadFromKV env parse = (none, ["config:main"]) := by
      simp [loadFromKV, hk, hp, hv]
    simp [loadConfig, hkv]

/-- Witness for C4: the empty document `{}` is rejected (its `version` field
is missing), and a store serving an invalid document makes `loadConfig`
return the built-in default. -/
theorem c4_validation_rejects_wholesale_witness :
    validateConfig (.obj []) ≠ .ok () ∧
    (loadConfig envInvalidDoc parseInvalidDoc 0 {}).1 = defaultConfig := by
  constructor
  · intro h
    exact absurd ((c4_validation_rejects_wholesale.1 (.obj [])).mp h).1
      (by decide)
  · exact c4_validation_rejects_wholesale.2 envInvalidDoc parseInvalidDoc 0
      "BAD" (.obj []) "Configuration missing version field" (by decide)
      (by decide) (by decide)

/-- C5: whenever `transform` fails — compile error or evaluation error (the
timeout rejection being unreachable, see `executeWithTimeout`) — the outcome
carries the original untransformed input as `data`, `success = false`, and a
non-empty error message, provided the opaque evaluation capability's own
thrown messages are non-empty (compile errors are wrapped in a non-empty
prefix by the engine itself).  As a Lean function the embedded `transform`
is total, mirroring that the engine never throws past its boundary. -/
theorem c5_failure_returns_original_input {C : Type}
    (compileO : String → Except String C)
    (evalO : C → Json → Except String Json) (defaultTimeout now : Nat)
    (data : Json) (transformExpr : TransformationExpressionM)
    (ctx : TransformContextM) (evalDurationMs : Nat)
    (cache : ExpressionCacheM C)
    (hEval : ∀ c d e, evalO c d = .error e → e ≠ "")
    (hFail : (transform compileO evalO defaultTimeout now data transformExpr
      ctx evalDurationMs cache).1.success = false) :
    (transform compileO evalO defaultTimeout now data transformExpr ctx
      evalDurationMs cache).1.data = data ∧
    ∃ m, (transform compileO evalO defaultTimeout now data transformExpr ctx
      evalDurationMs cache).1.error = some m ∧ m ≠ "" := by
  simp only [transform] at hFail ⊢
  rcases ha : transformAttempt compileO evalO now transformExpr.expression
      (cacheTtlMs transformExpr.cacheTtl)
      (effectiveTimeout ctx.timeout defaultTimeout) evalDurationMs data
      cache with ⟨r, cache'⟩
  cases r with
  | error e =>
    refine ⟨rfl, e, rfl, ?_⟩
    exact transformAttempt_error_nonempty compileO evalO now
      transformExpr.expression (cacheTtlMs transformExpr.cacheTtl)
      (effectiveTimeout ctx.timeout defaultTimeout) evalDurationMs data
      cache e hEval (congrArg Prod.fst ha)
  | ok v =>
    rw [ha] at hFail
    have hx : (true : Bool) = false := hFail
    exact absurd hx (by decide)

/-- Witness for C5: a concrete evaluation failure — the outcome keeps the
original input `7` and carries the evaluator's non-empty message. -/
theorem c5_failure_returns_original_input_witness :
    (transform (fun _ => .ok ()) (fun _ _ => .error "boom") 50 0 (.num 7)
      { expression := "$x" }
      { fromVersion := .str "v1", toVersion := .str "v2",
        direction := "request" } 3 (ExpressionCacheM.empty Unit)).1.data
      = .num 7 ∧
    ∃ m, (transform (fun _ => .ok ()) (fun _ _ => .error "boom") 50 0 (.num 7)
      { expression := "$x" }
      { fromVersion := .str "v1", toVersion := .str "v2",
        direction := "request" } 3 (ExpressionCacheM.empty Unit)).1.error
      = some m ∧ m ≠ "" := by
  exact c5_failure_returns_original_input (fun _ => .ok ())
    (fun _ _ => .error "boom") 50 0 (.num 7) { expression := "$x" }
    { fromVersion := .str "v1", toVersion := .str "v2",
      direction := "request" } 3 (ExpressionCacheM.empty Unit)
    (by intro c d e h; injection h with h'; subst h'; decide) (by decide)

/-- C7: in the Expression Cache, (i) a hit on an unexpired entry promotes it
to the most-recently-used (last) position of the map, leaving the other
entries in order; (ii) inserting a fresh key into a cache at capacity evicts
exactly the first (least-recently-touched, by (i)) entry and keeps all
others; and (iii) in a capacity-2 scenario, an entry that was `get`-touched
after a later insertion survives the eviction caused by a fresh insertion —
the untouched later insertion is evicted instead. -/
theorem c7_lru_promotes_and_evicts_least_recently_touched :
    (∀ (C : Type) (c : ExpressionCacheM C) (now : Nat) (k : String)
       (e : CacheEntryM C),
      (c.entries.map Prod.fst).Nodup → mapFind c.entries k = some e →
      ¬ now - e.cachedAt > e.ttl →
      c.get now k =
        (some e.expression, ⟨mapErase c.entries k ++ [(k, e)], c.maxSize⟩)) ∧
    (∀ (C : Type) (c : ExpressionCacheM C) (now : Nat) (k : String) (v : C)
       (ttl : Nat) (k0 : String) (e0 : CacheEntryM C)
       (rest : List (String × CacheEntryM C)),
      c.entries = (k0, e0) :: rest → k0 ≠ "" →
      c.entries.length ≥ c.maxSize → (∀ p ∈ c.entries, p.1 ≠ k) →
      (c.set now k v ttl).entries = rest ++ [(k, ⟨v, now, ttl⟩)]) ∧
    (∀ (C : Type) (a b ck : String) (va vb vc : C) (ttl now : Nat),
      a ≠ b → a ≠ ck → b ≠ ck → a ≠ "" → b ≠ "" →
      (((ExpressionCacheM.empty C 2).set now a va ttl).set now b vb ttl).get
          now a =
        (some va, ⟨[(b, ⟨vb, now, ttl⟩), (a, ⟨va, now, ttl⟩)], 2⟩) ∧
      ((((((ExpressionCacheM.empty C 2).set now a va ttl).set now b vb
          ttl).get now a).2.set now ck vc ttl).entries.map Prod.fst) =
        [a, ck]) := by
  refine ⟨?_, ?_, ?_⟩
  · intro C c now k e hnodup hfind hfresh
    have happ := mapSet_eq_append (mapErase c.entries k) k e
      (mapErase_keys_ne c.entries k hnodup)
    unfold ExpressionCacheM.get
    rw [hfind]
    split
    · rename_i heq
      exact absurd heq (by simp)
    · rename_i entry heq
      injection heq with he
      subst he
      split
      · rename_i hgt
        exact absurd hgt hfresh
      · rw [happ]
  · intro C c now k v ttl k0 e0 rest hentries hk0 hlen hfresh
    have hev : c.evicted = rest := by
      unfold ExpressionCacheM.evicted
      rw [hentries] at hlen
      rw [hentries, if_pos hlen]
      show (if k0 ≠ "" then rest else (k0, e0) :: rest) = rest
      rw [if_pos hk0]
    unfold ExpressionCacheM.set
    rw [hev]
    exact mapSet_eq_append rest k ⟨v, now, ttl⟩
      (fun p hp => hfresh p (hentries ▸ List.mem_cons_of_mem _ hp))
  · intro C a b ck va vb vc ttl now hab hack hbck ha0 hb0
    have hba : b ≠ a := Ne.symm hab
    constructor
    · simp [ExpressionCacheM.empty, ExpressionCacheM.set,
        ExpressionCacheM.evicted, ExpressionCacheM.get, mapFind, mapErase,
        mapSet, hab, hba, Nat.sub_self]
    · simp [ExpressionCacheM.empty, ExpressionCacheM.set,
        ExpressionCacheM.evicted, ExpressionCacheM.get, mapFind, mapErase,
        mapSet, hab, hba, hack, hbck, ha0, hb0, Nat.sub_self]

/-- Witness for C7: a concrete promotion (capacity 2, one entry), a concrete
eviction at capacity, and the concrete touched-entry-survives scenario. -/
theorem c7_lru_promotes_and_evicts_witness :
    (ExpressionCacheM.get ⟨[("k1", ⟨(5 : Nat), 0, 10⟩)], 2⟩ 0 "k1" =
      (some 5, ⟨mapErase [("k1", ⟨(5 : Nat), 0, 10⟩)] "k1" ++
        [("k1", ⟨5, 0, 10⟩)], 2⟩)) ∧
    ((ExpressionCacheM.set ⟨[("x", ⟨(1 : Nat), 0, 10⟩),
        ("y", ⟨2, 0, 10⟩)], 2⟩ 0 "z" 3 10).entries =
      [("y", ⟨2, 0, 10⟩)] ++ [("z", ⟨3, 0, 10⟩)]) ∧
    ((((ExpressionCacheM.empty Nat 2).set 0 "a" 1 10).set 0 "b" 2 10).get
        0 "a" =
      (some 1, ⟨[("b", ⟨2, 0, 10⟩), ("a", ⟨1, 0, 10⟩)], 2⟩)) ∧
    ((((((ExpressionCacheM.empty Nat 2).set 0 "a" 1 10).set 0 "b" 2
        10).get 0 "a").2.set 0 "c" 3 10).entries.map Prod.fst = ["a", "c"]) := by
  refine ⟨?_, ?_, ?_, ?_⟩
  · exact c7_lru_promotes_and_evicts_least_recently_touched.1 Nat
      ⟨[("k1", ⟨5, 0, 10⟩)], 2⟩ 0 "k1" ⟨5, 0, 10⟩ (by decide) (by decide)
      (by decide)
  · exact c7_lru_promotes_and_evicts_least_recently_touched.2.1 Nat
      ⟨[("x", ⟨1, 0, 10⟩), ("y", ⟨2, 0, 10⟩)], 2⟩ 0 "z" 3 10 "x" ⟨1, 0, 10⟩
      [("y", ⟨2, 0, 10⟩)] rfl (by decide) (by decide) (by decide)
  · exact (c7_lru_promotes_and_evicts_least_recently_touched.2.2 Nat
      "a" "b" "c" 1 2 3 10 0 (by decide) (by decide) (by decide) (by decide)
      (by decide)).1
  · exact (c7_lru_promotes_and_evicts_least_recently_touched.2.2 Nat
      "a" "b" "c" 1 2 3 10 0 (by decide) (by decide) (by decide) (by decide)
      (by decide)).2

/-- C9 counterexample: with a cached configuration whose `v1` request leg is
the reference `kv:exprs/v1-req`, the first `getVersionTransformation` writes
the fetched text into the **cached** document (the lookup aliases the cache),
so a second lookup of the same version within the TTL performs **no** store
read and returns the already-substituted expression — refuting the claim
that the substitution happens only in the returned value and that the second
lookup re-fetches from the store. -/
theorem c9_counterexample_resolution_mutates_cache :
    ((((refCfg.getField "transformations").getField "v1").getField
      "request").getField "expression" = .str "kv:exprs/v1-req") ∧
    ((getVersionTransformation envRef parseRef 0 "v1" {}).2.1.cache.map
      (fun cc => (((cc.config.getField "transformations").getField
        "v1").getField "request").getField "expression")
      = some (.str "$fetched")) ∧
    ((getVersionTransformation envRef parseRef 1 "v1"
      (getVersionTransformation envRef parseRef 0 "v1" {}).2.1).2.2 = []) ∧
    ((getVersionTransformation envRef parseRef 1 "v1"
      (getVersionTransformation envRef parseRef 0 "v1" {}).2.1).1 =
      (getVersionTransformation envRef parseRef 0 "v1" {}).1) := by
  refine ⟨by decide, by decide, by decide, by decide⟩

/-- C9 (amended): `getVersionTransformation` substitutes fetched reference
content in place in the resolver's cached configuration document, so a
lookup against a cached document whose legs hold no `kv:` reference (in
particular, any lookup after a first one resolved the references) returns
the cached — already substituted — transformation, reads nothing from the
store, and leaves the state unchanged: the resolution is effectively cached
for the lifetime of the cached document. -/
theorem c9_reference_resolution_persisted_in_cache
    (env : EnvM) (parse : String → Except String Json) (now : Nat)
    (version : String) (cc : ConfigCacheM)
    (hvalid : isCacheValid now cc = true)
    (htruthy : ((cc.config.getField "transformations").getField
      version).truthy = true)
    (hreq : legIsRef ((cc.config.getField "transformations").getField
      version) "request" = false)
    (hresp : legIsRef ((cc.config.getField "transformations").getField
      version) "response" = false) :
    getVersionTransformation env parse now version ⟨some cc⟩ =
      (some ((cc.config.getField "transformations").getField version),
        ⟨some cc⟩, []) := by
  have hload : loadConfig env parse now ⟨some cc⟩ = (cc.config, ⟨some cc⟩, []) := by
    simp [loadConfig, hvalid]
  unfold getVersionTransformation
  rw [hload]
  simp [htruthy,
    resolveLeg_of_not_ref env "request" version
      ((cc.config.getField "transformations").getField version) ⟨some cc⟩ hreq,
    resolveLeg_of_not_ref env "response" version
      ((cc.config.getField "transformations").getField version) ⟨some cc⟩ hresp]

/-- Witness for C9: the second lookup against the mutated cached document of
the counterexample reads nothing and returns the substituted
transformation. -/
theorem c9_reference_resolution_persisted_witness :
    getVersionTransformation envRef parseRef 1 "v1"
      ⟨some ⟨refCfgResolved, 0, 3600000⟩⟩ =
      (some ((refCfgResolved.getField "transformations").getField "v1"),
        ⟨some ⟨refCfgResolved, 0, 3600000⟩⟩, []) := by
  exact c9_reference_resolution_persisted_in_cache envRef parseRef 1 "v1"
    ⟨refCfgResolved, 0, 3600000⟩ (by decide) (by decide) (by decide)
    (by decide)

/-- C3: whenever the orchestrator reaches the upstream call (the request-leg
transformation succeeded or was skipped), the upstream response is JSON, and
the transformer fails on every response-leg invocation (for whatever reason,
a syntactically invalid expression included), the gateway still responds
with the upstream's status code and the original untransformed parsed
upstream body. -/
theorem c3_response_failure_returns_original_upstream
    (env : EnvM) (parse : String → Except String Json) (now : Nat)
    (transformO : Json → Json → TransformContextM → TransformResultM)
    (ctx : RequestContextM) (upstream : UpstreamResponseM)
    (hjson : upstream.isJsonContentType = true)
    (hfail : ∀ input expr c, c.direction = "response" →
      (transformO input expr c).success = false)
    (hsent : (handleRequest env parse now transformO ctx
      upstream).sentUpstream.isSome = true) :
    (handleRequest env parse now transformO ctx upstream).status =
      upstream.status ∧
    (handleRequest env parse now transformO ctx upstream).body =
      .json (upstream.jsonBody.getD .null) := by
  by_cases hsup : (supportedCheck env parse now
      (effectiveVersion env parse now ctx.apiVersion).toPropertyKey).1 = true
  · cases hvt : (getVersionTransformation env parse now
        (effectiveVersion env parse now ctx.apiVersion).toPropertyKey
        (supportedCheck env parse now
          (effectiveVersion env parse now ctx.apiVersion).toPropertyKey).2.1).1 with
    | none => simp [handleRequest, hsup, hvt] at hsent
    | some versionTransform =>
      by_cases hguard : (ctx.body.truthy = true ∧
          effectiveVersion env parse now ctx.apiVersion ≠
            (loadedConfig env parse now).getField "upstreamVersion" ∧
          (versionTransform.getField "request").getField "expression" ≠
            Json.str "$")
      · by_cases hsucc : (transformO ctx.body
            (versionTransform.getField "request")
            { fromVersion := effectiveVersion env parse now ctx.apiVersion,
              toVersion := (loadedConfig env parse now).getField
                "upstreamVersion",
              direction := "request" }).success = true
        · have hgoal : handleRequest env parse now transformO ctx upstream =
              forwardAndRespond transformO ctx upstream
                (effectiveVersion env parse now ctx.apiVersion)
                ((loadedConfig env parse now).getField "upstreamVersion")
                versionTransform
                (transformO ctx.body (versionTransform.getField "request")
                  { fromVersion := effectiveVersion env parse now
                      ctx.apiVersion,
                    toVersion := (loadedConfig env parse now).getField
                      "upstreamVersion",
                    direction := "request" }).data true := by
            simp [handleRequest, hsup, hvt, hguard, hsucc]
          rw [hgoal]
          exact forwardAndRespond_response_failure transformO ctx upstream
            _ _ _ _ _ hjson hfail
        · simp [handleRequest, hsup, hvt, hguard, hsucc] at hsent
      · have hgoal : handleRequest env parse now transformO ctx upstream =
            forwardAndRespond transformO ctx upstream
              (effectiveVersion env parse now ctx.apiVersion)
              ((loadedConfig env parse now).getField "upstreamVersion")
              versionTransform ctx.body false := by
          simp [handleRequest, hsup, hvt, hguard]
        rw [hgoal]
        exact forwardAndRespond_response_failure transformO ctx upstream
          _ _ _ _ _ hjson hfail
  · simp [handleRequest, hsup] at hsent

/-- Witness for C3: default configuration, version `v1`, bodiless request,
JSON upstream `{"id": 1}` with status 200, and a transformer that fails on
everything — the gateway responds 200 with the original upstream body. -/
theorem c3_response_failure_returns_original_witness :
    (handleRequest envEmpty parseNone 0 alwaysFailTransform
      { method := "GET", path := "/users", apiVersion := "v1" }
      upstreamJson200).status = 200 ∧
    (handleRequest envEmpty parseNone 0 alwaysFailTransform
      { method := "GET", path := "/users", apiVersion := "v1" }
      upstreamJson200).body = .json (.obj [("id", .num 1)]) := by
  exact c3_response_failure_returns_original_upstream envEmpty parseNone 0
    alwaysFailTransform
    { method := "GET", path := "/users", apiVersion := "v1" }
    upstreamJson200 rfl (fun _ _ _ _ => rfl) (by decide)

/-- C10: a request body that parses to a JS-falsy value (`0`, `false`, `""`
or `null`) is treated exactly like an absent body — the request-leg
transformation never runs, any upstream request carries no `Content-Type`
and a `null` body, and the whole outcome is identical to the same request
with an absent (`null`) body. -/
theorem c10_falsy_body_treated_as_absent
    (env : EnvM) (parse : String → Except String Json) (now : Nat)
    (transformO : Json → Json → TransformContextM → TransformResultM)
    (ctx : RequestContextM) (upstream : UpstreamResponseM) (b : Json)
    (hb : b.truthy = false) :
    (handleRequest env parse now transformO { ctx with body := b }
      upstream).requestTransformRan = false ∧
    (∀ u, (handleRequest env parse now transformO { ctx with body := b }
        upstream).sentUpstream = some u →
      u.contentTypeSet = false ∧ u.body = none) ∧
    handleRequest env parse now transformO { ctx with body := b } upstream =
      handleRequest env parse now transformO { ctx with body := .null }
        upstream := by
  have hfr : ∀ (av uv vt : Json) (rtr : Bool),
      forwardAndRespond transformO { ctx with body := b } upstream av uv vt
        b rtr =
      forwardAndRespond transformO { ctx with body := .null } upstream av uv
        vt .null rtr :=
    fun av uv vt rtr => forwardAndRespond_falsy_body transformO _ _ upstream
      av uv vt b .null rtr rfl hb rfl
  refine ⟨?_, ?_, ?_⟩
  · by_cases hsup : (supportedCheck env parse now
        (effectiveVersion env parse now ctx.apiVersion).toPropertyKey).1 = true
    · cases hvt : (getVersionTransformation env parse now
          (effectiveVersion env parse now ctx.apiVersion).toPropertyKey
          (supportedCheck env parse now
            (effectiveVersion env parse now
              ctx.apiVersion).toPropertyKey).2.1).1 with
      | none => simp [handleRequest, hsup, hvt]
      | some versionTransform =>
        simp [handleRequest, hsup, hvt, hb]
        exact ((forwardAndRespond_fields transformO _ upstream _ _ _ _
          false).2.1)
    · simp [handleRequest, hsup]
  · intro u hu
    by_cases hsup : (supportedCheck env parse now
        (effectiveVersion env parse now ctx.apiVersion).toPropertyKey).1 = true
    · cases hvt : (getVersionTransformation env parse now
          (effectiveVersion env parse now ctx.apiVersion).toPropertyKey
          (supportedCheck env parse now
            (effectiveVersion env parse now
              ctx.apiVersion).toPropertyKey).2.1).1 with
      | none => simp [handleRequest, hsup, hvt] at hu
      | some versionTransform =>
        simp [handleRequest, hsup, hvt, hb] at hu
        rw [(forwardAndRespond_fields transformO _ upstream _ _ _ _
          false).1] at hu
        have hu' := Option.some.inj hu
        subst hu'
        simp [hb]
    · simp [handleRequest, hsup] at hu
  · have hnull : Json.truthy .null = false := rfl
    simp [handleRequest, hb, hfr, hnull]

/-- Witness for C10: a request whose body parsed to `0` (default
configuration, version `v1`) — the request-leg transformation does not run,
the upstream request has no `Content-Type` and a `null` body, and the
outcome equals that of the bodiless request. -/
theorem c10_falsy_body_treated_as_absent_witness :
    (handleRequest envEmpty parseNone 0 alwaysFailTransform
      { method := "POST", path := "/users", apiVersion := "v1",
        body := .num 0 } upstreamJson200).requestTransformRan = false ∧
    (∀ u, (handleRequest envEmpty parseNone 0 alwaysFailTransform
        { method := "POST", path := "/users", apiVersion := "v1",
          body := .num 0 } upstreamJson200).sentUpstream = some u →
      u.contentTypeSet = false ∧ u.body = none) ∧
    handleRequest envEmpty parseNone 0 alwaysFailTransform
      { method := "POST", path := "/users", apiVersion := "v1",
        body := .num 0 } upstreamJson200 =
      handleRequest envEmpty parseNone 0 alwaysFailTransform
        { method := "POST", path := "/users", apiVersion := "v1",
          body := .null } upstreamJson200 := by
  exact c10_falsy_body_treated_as_absent envEmpty parseNone 0
    alwaysFailTransform
    { method := "POST", path := "/users", apiVersion := "v1" }
    upstreamJson200 (.num 0) (by decide)

end Gateway
